import Mathlib

/-!
Shallow embedding of the Combat & Mortality subsystem of `src/main.py`
(LifeSim).  Pure fragments of the Python code are translated into Lean
functions; the file-backed near-death record is modelled as an optional
JSON value, and the character stores as explicit lookup functions.
Machine integers are modelled as `ℤ`/`ℕ` (Python ints are unbounded),
Python float arithmetic on small decimal values as `ℚ`, and Python `//`
(floor division) as `Int.fdiv`.
-/

namespace LifeSim

/-! ## StatCodec (`StatManager`, `src/main.py` 150-184, 2809-2810)

Stat strings are modelled as `List Char`.  A decimal-digit character is
one with code point between 48 (`'0'`) and 57 (`'9'`). -/

/-- The property of being a decimal digit character. -/
def isDigitChar (c : Char) : Prop := 48 ≤ c.toNat ∧ c.toNat ≤ 57

instance (c : Char) : Decidable (isDigitChar c) := by
  unfold isDigitChar; infer_instance

/-- Numeric value of a digit character (Python `int` on a one-digit string). -/
def digitToNat (c : Char) : ℕ := c.toNat - 48

/-- Digit character of a value below 10 (one character of Python decimal
formatting). -/
def natToDigit (n : ℕ) : Char := Char.ofNat (48 + n)

/-- Python `int(s)` on a string of digit characters. -/
def intOfDigits (s : List Char) : ℕ := s.foldl (fun a c => 10 * a + digitToNat c) 0

/-- Python `f"{x:02d}"`: decimal representation left-padded with `'0'` to
width 2.  Every call site passes a value in `[0,99]`, where this is the
two-digit representation. -/
def format02 (n : ℕ) : List Char :=
  if n < 100 then [natToDigit (n / 10), natToDigit (n % 10)]
  else Nat.toDigits 10 n

/-- `StatManager.get_stat_block` (`src/main.py` 169-172): parse consecutive
two-character slices (`int(stats_str[i:i+2])` for `i = 0,2,4,…`); a trailing
single character parses as a one-digit number, as in Python. -/
def get_stat_block : List Char → List ℕ
  | c1 :: c2 :: rest => (10 * digitToNat c1 + digitToNat c2) :: get_stat_block rest
  | [c] => [digitToNat c]
  | [] => []

/-- The stat-string encoder used by `TrainingSystem.execute_training`
(`src/main.py` 2810): `''.join(f"{x:02d}" for x in stats)`. -/
def encode_stats (xs : List ℕ) : List Char := (xs.map format02).flatten

/-- `StatManager.modify_stat` (`src/main.py` 162-167): read the two-digit
value at `index`, add `amount`, clamp to `[0,99]`, splice back in place. -/
def modify_stat (s : List Char) (index : ℕ) (amount : ℤ) : List Char :=
  let current : ℤ := intOfDigits ((s.drop index).take 2)
  let updated : ℤ := max 0 (min 99 (current + amount))
  (s.take index) ++ format02 updated.toNat ++ s.drop (index + 2)

/-! ## BodyModel (`CombatSystem`, `src/main.py` 252-256, 2760-2762)

A body is a mapping zone → health; the six zones are fixed. -/

/-- The six body zones, in the order of `CombatSystem.BODY_ZONES`. -/
inductive Zone where
  | head | torso | left_arm | right_arm | left_leg | right_leg
deriving DecidableEq

/-- `CombatSystem.BODY_ZONES` (`src/main.py` 252), which is also the
iteration order of the body dict. -/
def BODY_ZONES : List Zone :=
  [.head, .torso, .left_arm, .right_arm, .left_leg, .right_leg]

/-- Per-zone health, the `{"zone": {"health": h}}` mapping of the body file. -/
structure Body where
  head : ℤ
  torso : ℤ
  left_arm : ℤ
  right_arm : ℤ
  left_leg : ℤ
  right_leg : ℤ
deriving DecidableEq

/-- `body[zone]["health"]`. -/
def Body.zone (b : Body) : Zone → ℤ
  | .head => b.head
  | .torso => b.torso
  | .left_arm => b.left_arm
  | .right_arm => b.right_arm
  | .left_leg => b.left_leg
  | .right_leg => b.right_leg

/-- `body[zone]["health"] = v`. -/
def Body.setZone (b : Body) (z : Zone) (v : ℤ) : Body :=
  match z with
  | .head => { b with head := v }
  | .torso => { b with torso := v }
  | .left_arm => { b with left_arm := v }
  | .right_arm => { b with right_arm := v }
  | .left_leg => { b with left_leg := v }
  | .right_leg => { b with right_leg := v }

/-- The damage application of `CombatEngine.execute_advanced_attack`
(`src/main.py` 2742-2744):
`health -= final_damage; health = max(0, health)`. -/
def attack_apply_damage (defender_body : Body) (target_zone : Zone)
    (final_damage : ℤ) : Body :=
  let hit := defender_body.setZone target_zone
      (defender_body.zone target_zone - final_damage)
  hit.setZone target_zone (max 0 (hit.zone target_zone))

/-- The damage application of `EscapeSystem.execute_punishment_attack`
(`src/main.py` 1929-1931); the target is drawn from
torso/head/left_arm/right_arm. -/
def punishment_apply_damage (player_body : Body) (target_zone : Zone)
    (damage : ℤ) : Body :=
  let hit := player_body.setZone target_zone
      (player_body.zone target_zone - damage)
  hit.setZone target_zone (max 0 (hit.zone target_zone))

/-- The per-strike damage application of `SurrenderSystem.execute_beating`
(`src/main.py` 2078-2080). -/
def beating_apply_damage (player_body : Body) (target_zone : Zone)
    (damage : ℤ) : Body :=
  let hit := player_body.setZone target_zone
      (player_body.zone target_zone - damage)
  hit.setZone target_zone (max 0 (hit.zone target_zone))

/-- `CombatEngine.check_defeat` (`src/main.py` 2760-2762). -/
def check_defeat (body : Body) : Bool :=
  body.head ≤ 0 || body.torso ≤ 0

/-! ## ConfidenceModel (`CombatEngine`, `src/main.py` 2302-2375) -/

/-- The per-side dynamic combat state of `CombatEngine.init_dynamic_state`
(`src/main.py` 2316-2326).  The Python float `dmg_multiplier` is modelled
as `ℚ`. -/
structure DynamicState where
  confidence : ℤ
  slip_chance : ℤ
  crit_bonus : ℤ
  acc_bonus : ℤ
  dmg_multiplier : ℚ
  skip_turn_chance : ℤ
  stamina_penalty : Bool
deriving DecidableEq

/-- `CombatEngine.apply_confidence_penalties` (`src/main.py` 2330-2365):
recompute every modifier from the current confidence value. -/
def apply_confidence_penalties (dynamic : DynamicState) : DynamicState :=
  if dynamic.confidence ≥ 80 then
    { dynamic with crit_bonus := 5, acc_bonus := 5, dmg_multiplier := 11/10,
                   slip_chance := 0, skip_turn_chance := 0, stamina_penalty := false }
  else if 50 ≤ dynamic.confidence ∧ dynamic.confidence < 80 then
    { dynamic with crit_bonus := 0, acc_bonus := 0, dmg_multiplier := 1,
                   slip_chance := 0, skip_turn_chance := 0, stamina_penalty := false }
  else if 20 ≤ dynamic.confidence ∧ dynamic.confidence < 50 then
    { dynamic with crit_bonus := 0, acc_bonus := -10, dmg_multiplier := 1,
                   slip_chance := 0, skip_turn_chance := 0, stamina_penalty := false }
  else
    { dynamic with crit_bonus := 0, acc_bonus := -15, dmg_multiplier := 3/4,
                   slip_chance := 10, skip_turn_chance := 10, stamina_penalty := true }

/-- `CombatEngine.init_dynamic_state` (`src/main.py` 2316-2328). -/
def init_dynamic_state (confidence : ℤ) : DynamicState :=
  apply_confidence_penalties
    { confidence := confidence, slip_chance := 0, crit_bonus := 0, acc_bonus := 0,
      dmg_multiplier := 1, skip_turn_chance := 0, stamina_penalty := false }

/-- `CombatEngine.update_confidence` (`src/main.py` 2367-2375): clamp the
new confidence to `[0,100]`, then recompute the modifiers. -/
def update_confidence (dynamic : DynamicState) (amount : ℤ) : DynamicState :=
  apply_confidence_penalties
    { dynamic with confidence := max 0 (min 100 (dynamic.confidence + amount)) }

/-- `CombatEngine.calculate_starting_confidence` (`src/main.py` 2302-2314).
Stat blocks are the `List ℕ` produced by `get_stat_block`; Python `//` on a
possibly negative advantage is floor division (`Int.fdiv`). -/
def calculate_starting_confidence (p_stats n_stats : List ℕ) : ℤ × ℤ :=
  let player_power : ℤ := ((p_stats.take 8).sum : ℤ)
  let npc_power : ℤ := ((n_stats.take 8).sum : ℤ)
  let advantage := player_power - npc_power
  let player_will : ℤ := (p_stats.getD 9 0 : ℤ)
  let npc_will : ℤ := (n_stats.getD 9 0 : ℤ)
  (max 0 (min 100 (50 + advantage.fdiv 5 + player_will)),
   max 0 (min 100 (50 - advantage.fdiv 5 + npc_will)))

/-- Modelled from the spec: `ConfidenceModel.tier`, the four-band modifier
table `(crit_bonus, acc_bonus, dmg_multiplier, skip_turn_chance,
slip_chance)`: `≥80 → (+5,+5,1.10,0,0)`; `[50,80) → (0,0,1.00,0,0)`;
`[20,50) → (0,−10,1.00,0,0)`; `<20 → (0,−15,0.75,10,10)`. -/
def tier (confidence : ℤ) : ℤ × ℤ × ℚ × ℤ × ℤ :=
  if confidence ≥ 80 then (5, 5, 11/10, 0, 0)
  else if 50 ≤ confidence then (0, 0, 1, 0, 0)
  else if 20 ≤ confidence then (0, -10, 1, 0, 0)
  else (0, -15, 3/4, 10, 10)

/-- The five modifiers carried by a dynamic state, in the order of `tier`. -/
def modifiers (d : DynamicState) : ℤ × ℤ × ℚ × ℤ × ℤ :=
  (d.crit_bonus, d.acc_bonus, d.dmg_multiplier, d.skip_turn_chance, d.slip_chance)

/-! ## Critical-hit chance (`CombatEngine.execute_advanced_attack`,
`src/main.py` 2722-2724) -/

/-- The critical chance computed by `execute_advanced_attack`:
`crit_chance = min(30, 5 + accuracy_stat // 4 + experience // 10)` followed
by `crit_chance += crit_bonus`.  The stats are the (non-negative)
penalty-adjusted `attacker_stats[2]` and `attacker_stats[4]`. -/
def crit_chance (accuracy_stat experience : ℕ) (crit_bonus : ℤ) : ℤ :=
  ((min 30 (5 + accuracy_stat / 4 + experience / 10) : ℕ) : ℤ) + crit_bonus

/-- Modelled from the spec: critical chance as the claim states it, the
clamp to at most 30 of the whole sum including the confidence bonus. -/
def crit_chance_spec (accuracy_stat experience : ℕ) (crit_bonus : ℤ) : ℤ :=
  min 30 (5 + (accuracy_stat : ℤ) / 4 + (experience : ℤ) / 10 + crit_bonus)

/-! ## MortalityEvaluator (`DeathSystem.check_death_conditions`,
`src/main.py` 1010-1060) -/

/-- Death causes appearing in `DeathSystem.DEATH_CAUSES`. -/
inductive Cause where
  | head_trauma | organ_failure | blood_loss | shock | suffocation
deriving DecidableEq

/-- Result of `DeathSystem.check_death_conditions`. -/
inductive MortStatus where
  | stable
  | near_death (cause : Cause) (severity : ℤ)
  | death_risk (causes : List Cause)
deriving DecidableEq

/-- `DeathSystem.check_death_conditions` (`src/main.py` 1010-1060).
The float `health_percentage` is modelled as `ℚ`; on the integer totals
involved the float comparisons agree with the exact rational ones. -/
def check_death_conditions (body : Body) : MortStatus := Id.run do
  let total_health := body.head + body.torso + body.left_arm + body.right_arm
      + body.left_leg + body.right_leg
  let max_health : ℤ := 6 * 100
  let health_percentage : ℚ := ((total_health : ℚ) / (max_health : ℚ)) * 100
  let head_health := body.head
  let torso_health := body.torso
  let mut death_risks : List Cause := []
  -- Head trauma check
  if head_health ≤ 5 then
    death_risks := death_risks ++ [.head_trauma]
  else if head_health ≤ 15 then
    return .near_death .head_trauma 0
  -- Torso damage check (vital organs)
  if torso_health ≤ 3 then
    death_risks := death_risks ++ [.organ_failure]
  else if torso_health ≤ 12 then
    return .near_death .organ_failure 1
  -- Overall blood loss
  if health_percentage ≤ 15 then
    death_risks := death_risks ++ [.blood_loss]
  else if health_percentage ≤ 25 then
    return .near_death .blood_loss 1
  -- Multiple injuries causing shock
  let injured_zones := (BODY_ZONES.filter (fun z => body.zone z < 50)).length
  if injured_zones ≥ 4 ∧ health_percentage ≤ 40 then
    death_risks := death_risks ++ [.shock]
  else if injured_zones ≥ 3 ∧ health_percentage ≤ 35 then
    return .near_death .shock 2
  -- Breathing issues from torso/head damage
  if head_health ≤ 20 ∧ torso_health ≤ 30 then
    death_risks := death_risks ++ [.suffocation]
  if ¬ death_risks.isEmpty then
    return .death_risk death_risks
  else if health_percentage ≤ 30 then
    return .near_death .blood_loss 3
  return .stable

/-! ## EscapeSystem (`src/main.py` 1833-1864) -/

/-- `EscapeSystem.calculate_escape_chance` (`src/main.py` 1833-1864).
`player_stats`/`npc_stats` are decoded stat blocks (index 3 speed,
index 4 experience), `confidence` is `player_dynamic["confidence"]`.
Python `//` on the possibly-negative confidence offset is `Int.fdiv`. -/
def calculate_escape_chance (player_stats : List ℕ) (player_body : Body)
    (confidence : ℤ) (npc_stats : List ℕ) : ℤ :=
  let player_speed : ℤ := (player_stats.getD 3 0 : ℤ)
  let npc_speed : ℤ := (npc_stats.getD 3 0 : ℤ)
  let base_chance := 30 + (player_speed - npc_speed) * 2
  let injury_penalty : ℤ := BODY_ZONES.foldl
    (fun acc zone =>
      if player_body.zone zone < 50 then
        if zone = .left_leg ∨ zone = .right_leg then acc + 15
        else if zone = .torso then acc + 10
        else acc + 5
      else acc) 0
  let confidence_modifier := (confidence - 50).fdiv 10
  let experience_bonus : ℤ := ((player_stats.getD 4 0) / 10 : ℕ)
  let final_chance := base_chance + confidence_modifier + experience_bonus - injury_penalty
  max 5 (min 85 final_chance)

/-- Modelled from the spec: the escape-chance formula as the claim states
it — `clamp(5,85, 30 + 2×(speed_self − speed_opponent) + (confidence−50)/10
+ experience/10 − injury_penalty)` with `injury_penalty` summing 15 per leg
below 50 health, 10 for a torso below 50, 5 for any other zone below 50. -/
def escape_chance_spec (player_stats : List ℕ) (player_body : Body)
    (confidence : ℤ) (npc_stats : List ℕ) : ℤ :=
  let speed_self : ℤ := (player_stats.getD 3 0 : ℤ)
  let speed_opponent : ℤ := (npc_stats.getD 3 0 : ℤ)
  let legs_penalty : ℤ :=
    (if player_body.left_leg < 50 then 15 else 0) +
    (if player_body.right_leg < 50 then 15 else 0)
  let torso_penalty : ℤ := if player_body.torso < 50 then 10 else 0
  let other_penalty : ℤ :=
    (if player_body.head < 50 then 5 else 0) +
    (if player_body.left_arm < 50 then 5 else 0) +
    (if player_body.right_arm < 50 then 5 else 0)
  let injury_penalty := legs_penalty + torso_penalty + other_penalty
  max 5 (min 85 (30 + 2 * (speed_self - speed_opponent) + (confidence - 50).fdiv 10
    + ((player_stats.getD 4 0) / 10 : ℕ) - injury_penalty))

/-! ## JSON values and the near-death record store

The near-death record lives in `./body/near_death/{char_id}.json`; its
loaded content is an arbitrary JSON value.  A missing file is `none`; an
unreadable/empty file loads as the empty dict (`load_json` returns `{}` on
decode errors, `src/main.py` 64-82). -/

/-- JSON values as loaded by `load_json`.  Numbers are restricted to the
integers actually stored by this subsystem. -/
inductive Json where
  | null
  | bool (b : Bool)
  | int (n : ℤ)
  | str (s : String)
  | arr (elems : List Json)
  | obj (fields : List (String × Json))

/-- Python truthiness of a loaded JSON value (`None`, `False`, `0`, `""`,
`[]`, `{}` are falsy). -/
def Json.truthy : Json → Bool
  | .null => false
  | .bool b => b
  | .int n => n ≠ 0
  | .str s => s ≠ ""
  | .arr xs => ¬ xs.isEmpty
  | .obj fs => ¬ fs.isEmpty

/-- `isinstance(·, dict)`. -/
def Json.isObj : Json → Bool
  | .obj _ => true
  | _ => false

/-- Key lookup in a loaded dict (`d.get(key)` without default). -/
def Json.get : Json → String → Option Json
  | .obj fs, key => fs.lookup key
  | _, _ => none

/-- `d.get(key, default)`. -/
def Json.getDJ (j : Json) (key : String) (default : Json) : Json :=
  (j.get key).getD default

/-- Integer field access with a default: `d.get(key, fallback)` at the
sites where the value is used as a number.  The records written by
`trigger_near_death`/`worsen_condition` store integers here; a present
non-numeric value falls back rather than modelling Python's `TypeError`
on the subsequent arithmetic (no claim reaches that case). -/
def Json.getIntD (j : Json) (key : String) (fallback : ℤ) : ℤ :=
  match j.get key with
  | some (.int n) => n
  | _ => fallback

/-- Python dict assignment `d[key] = v`: replace the first binding of the
key in place, else append. -/
def setField : List (String × Json) → String → Json → List (String × Json)
  | [], key, v => [(key, v)]
  | (k, w) :: rest, key, v =>
    if k = key then (key, v) :: rest else (k, w) :: setField rest key v

/-- `d[key] = v` on a loaded JSON value (only ever applied to dicts). -/
def Json.set (j : Json) (key : String) (v : Json) : Json :=
  match j with
  | .obj fs => .obj (setField fs key v)
  | other => other

/-! ## RecoverySystem (`src/main.py` 1434-1566) -/

/-- Outcome statuses of `RecoverySystem.check_natural_recovery` and
`RecoverySystem.worsen_condition`. -/
inductive RStatus where
  | not_near_death
  | recovered
  | worsened (new_severity : ℤ)
  | death_risk (cause : Json)
  | stable

/-- Observable effect of one recovery tick: the returned status, whether
the near-death file was removed, and the record written back (if any). -/
structure RecoveryResult where
  status : RStatus
  deleted : Bool
  saved : Option Json

/-- `RecoverySystem.worsen_condition` (`src/main.py` 1511-1566), over the
same disk state (`disk = none` models a missing file).  Returns the status
and the updated record it saves. -/
def worsen_condition (disk : Option Json) : RStatus × Option Json :=
  match disk with
  | none => (.death_risk (.str "shock"), none)
  | some nd =>
    if ¬ (nd.truthy ∧ nd.isObj) then (.death_risk (.str "shock"), none)
    else
      -- current_severity = get("severity", 2), replaced by 2 unless an int in [0,4]
      let raw_severity := nd.getIntD "severity" 2
      let current_severity :=
        if raw_severity < 0 ∨ raw_severity > 4 then 2 else raw_severity
      let recovery_chance := nd.getIntD "recovery_chance" 10
      let new_severity := max 0 (current_severity - 1)
      let nd' := ((nd.set "severity" (.int new_severity)).set
          "deterioration_chance" (.int (nd.getIntD "deterioration_chance" 30 + 10))).set
          "recovery_chance" (.int (max 5 (recovery_chance - 5)))
      if new_severity ≤ 0 then
        (.death_risk (nd.getDJ "cause" (.str "shock")), some nd')
      else
        (.worsened new_severity, some nd')

/-- `RecoverySystem.check_natural_recovery` (`src/main.py` 1434-1483):
validate the on-disk record, then dispatch on the d100 roll.  Total —
every branch returns a value, mirroring the original's catch-and-recover
handling of missing/corrupt files. -/
def check_natural_recovery (disk : Option Json) (roll : ℤ) : RecoveryResult :=
  match disk with
  | none => ⟨.not_near_death, false, none⟩
  | some nd =>
    if ¬ (nd.truthy ∧ nd.isObj) then
      -- corrupted file: removed and ignored
      ⟨.not_near_death, true, none⟩
    else if ¬ (nd.getDJ "active" (.bool false)).truthy then
      -- inactive record: removed and ignored
      ⟨.not_near_death, true, none⟩
    else
      let raw_recovery := nd.getIntD "recovery_chance" 10
      let recovery_chance := if raw_recovery < 0 then 10 else raw_recovery
      let raw_deterioration := nd.getIntD "deterioration_chance" 30
      let deterioration_chance := if raw_deterioration < 0 then 30 else raw_deterioration
      if roll ≤ recovery_chance then
        -- natural recovery: record removed, injured zones healed
        ⟨.recovered, true, none⟩
      else if roll ≤ recovery_chance + deterioration_chance then
        let (status, saved) := worsen_condition disk
        ⟨status, false, saved⟩
      else
        ⟨.stable, false, none⟩

/-- The near-death record written by `DeathSystem.trigger_near_death`
(`src/main.py` 1074-1082), with the mutable numeric fields generalized so
that post-`worsen_condition` states are expressible. -/
def mkNearDeathRecord (cause : String) (severity deterioration recovery : ℤ) : Json :=
  .obj [("active", .bool true), ("cause", .str cause), ("severity", .int severity),
        ("start_tick", .int 0), ("medical_attention", .bool false),
        ("deterioration_chance", .int deterioration), ("recovery_chance", .int recovery)]

/-! ## Character stores and MedicalSystem (`src/main.py` 196-200,
1240-1280, 2102-2167, 3110-3114)

Character records are heterogeneous JSON lists (index 8 holds the combat
stat string, index 10 the location).  NPC records live under
`Config.CHARACTER_PATH = "./chars"`; the player record is written only to
`Config.PLAYER_PATH = "./player/player.json"` (`Player.save`,
`create_new_player`), never into `./chars`. -/

/-- The two character stores: `./chars/{id}.json` keyed by id, and the
single `./player/player.json` record. -/
structure GameFiles where
  chars : String → Option (List Json)
  player : Option (List Json)

/-- `CharacterManager.get_character_data` (`src/main.py` 196-200): load
`./chars/{char_id}.json`; a missing file yields no record (`load_json`
returns the falsy `{}`). -/
def get_character_data (files : GameFiles) (char_id : String) : Option (List Json) :=
  files.chars char_id

/-- `getPlayer` (`src/main.py` 3110-3114). -/
def getPlayer (files : GameFiles) : Option (List Json) :=
  files.player

/-- The care tiers of `MedicalSystem.MEDICAL_INTERVENTIONS`
(`src/main.py` 1130-1176). -/
inductive CareType where
  | field_medicine | paramedic | emergency_room | trauma_center | experimental
deriving DecidableEq

/-- The `effectiveness` column of `MEDICAL_INTERVENTIONS`. -/
def effectiveness : CareType → ℤ
  | .field_medicine => 30
  | .paramedic => 55
  | .emergency_room => 75
  | .trauma_center => 90
  | .experimental => 95

/-- The stat string at index 8 of a character record (`char_data[8]`);
records written by the generators always hold a string there. -/
def statStringAt (r : List Json) : String :=
  match r.getD 8 .null with
  | .str s => s
  | _ => ""

/-- The success-chance computation of `MedicalSystem.apply_medical_care`
(`src/main.py` 1253-1271).  The patient's record is looked up with
`CharacterManager.get_character_data(char_id)` — the `./chars` store —
for every patient, the player included; the float stat bonus
`(endurance + toughness) / 10` is modelled as `ℚ`. -/
def apply_medical_care_chance (files : GameFiles) (char_id : String)
    (care_type : CareType) (severity : ℤ) : ℚ :=
  let base0 : ℚ := (effectiveness care_type : ℚ)
  let char_data := get_character_data files char_id
  let base1 : ℚ :=
    match char_data with
    | some r =>
      if r.length > 8 then
        let stats := get_stat_block (statStringAt r).toList
        let endurance := stats.getD 1 20
        let toughness := stats.getD 6 20
        base0 + ((endurance : ℚ) + (toughness : ℚ)) / 10
      else base0
    | none => base0
  let base2 := base1 - (severity : ℚ) * 5
  max 10 (min 95 base2)

/-- Modelled from the spec: the claim's success-chance formula,
`clamp(10, 95, effectiveness + (endurance + toughness)/10 − severity×5)`
with endurance and toughness read from the patient's own combat stat
block. -/
def medical_chance_spec (patient_stats : List ℕ) (care_type : CareType)
    (severity : ℤ) : ℚ :=
  let endurance := patient_stats.getD 1 20
  let toughness := patient_stats.getD 6 20
  max 10 (min 95 ((effectiveness care_type : ℚ)
    + ((endurance : ℚ) + (toughness : ℚ)) / 10 - (severity : ℚ) * 5))

/-- A concrete player record in the shape written by `create_new_player`
(`src/main.py` 2142-2154), after training has raised the combat stats:
index 8 holds the combat stat string (endurance digit pair `99` at slots
2-3, toughness `99` at slots 12-13). -/
def cex_player_record : List Json :=
  [.str "player_001", .str "Hero", .int 18, .int 0, .int 0, .int 0,
   .arr [.str "beginner", .str "curious"], .str "50505050505050505050",
   .str "99999999999999999999", .obj [], .str "city_001"]

/-- A game-file state as the program produces it for the player: the
player record sits at `./player/player.json` and `./chars` holds no
`player_001.json` — `Player.save` and `create_new_player` write only to
`Config.PLAYER_PATH`, and NPC ids are 6-character generated strings. -/
def cex_files : GameFiles :=
  { chars := fun _ => none, player := some cex_player_record }

/-! ## Helper lemmas -/

theorem Body.zone_setZone_self (b : Body) (z : Zone) (v : ℤ) :
    (b.setZone z v).zone z = v := by
  cases z <;> rfl

theorem apply_confidence_penalties_confidence (d : DynamicState) :
    (apply_confidence_penalties d).confidence = d.confidence := by
  unfold apply_confidence_penalties
  split_ifs <;> rfl

theorem modifiers_apply_confidence_penalties (d : DynamicState) :
    modifiers (apply_confidence_penalties d) = tier d.confidence := by
  unfold apply_confidence_penalties tier modifiers
  split_ifs <;> first | rfl | omega

/-! ## Claim theorems -/

/-- C1 counterexample: the code clamps the critical chance to 30 *before*
adding the confidence `crit_bonus` (`src/main.py` 2723 clamps, 2724 adds),
so an attacker with accuracy 99, experience 99 and the `≥80` confidence
tier (crit_bonus +5) rolls against 35, not the claimed
`clamp(≤30, 5 + acc/4 + exp/10 + crit_bonus) = 30`. -/
theorem crit_chance_over_30_cex :
    (init_dynamic_state 90).crit_bonus = 5 ∧
    crit_chance 99 99 ((init_dynamic_state 90).crit_bonus) = 35 ∧
    crit_chance_spec 99 99 ((init_dynamic_state 90).crit_bonus) = 30 ∧
    ¬ crit_chance 99 99 ((init_dynamic_state 90).crit_bonus) ≤ 30 := by
  decide

/-- C1 (amended): the critical chance equals
`min(30, 5 + accuracy_stat/4 + experience/10) + confidence.crit_bonus` —
the clamp is applied before the confidence bonus is added — so it is at
most `30 + crit_bonus` (at most 35, since the largest tier bonus is 5),
and it exceeds 30 only for the `≥80` confidence tier; whenever the
attacker's confidence is below 80 the chance never exceeds 30. -/
theorem crit_chance_clamp_before_bonus (accuracy_stat experience : ℕ)
    (d : DynamicState) :
    crit_chance accuracy_stat experience (apply_confidence_penalties d).crit_bonus
      = ((min 30 (5 + accuracy_stat / 4 + experience / 10) : ℕ) : ℤ)
        + (apply_confidence_penalties d).crit_bonus ∧
    crit_chance accuracy_stat experience (apply_confidence_penalties d).crit_bonus ≤ 35 ∧
    ((apply_confidence_penalties d).confidence < 80 →
      crit_chance accuracy_stat experience (apply_confidence_penalties d).crit_bonus ≤ 30) := by
  have hmin : ((min 30 (5 + accuracy_stat / 4 + experience / 10) : ℕ) : ℤ) ≤ 30 := by
    have h := Nat.min_le_left 30 (5 + accuracy_stat / 4 + experience / 10)
    exact_mod_cast h
  have hconf := apply_confidence_penalties_confidence d
  refine ⟨rfl, ?_, ?_⟩
  · unfold crit_chance
    unfold apply_confidence_penalties
    split_ifs <;> (simp; try omega)
  · intro hlt
    unfold crit_chance
    unfold apply_confidence_penalties at hlt ⊢
    split_ifs at hlt ⊢ <;> (simp at hlt ⊢; try omega)

/-- C1 witness: a concrete attacker below the top confidence tier
(confidence 40) keeps the critical chance at most 30. -/
theorem crit_chance_clamp_before_bonus_witness :
    crit_chance 99 99 (apply_confidence_penalties
      ⟨40, 0, 0, 0, 1, 0, false⟩).crit_bonus ≤ 30 :=
  (crit_chance_clamp_before_bonus 99 99 ⟨40, 0, 0, 0, 1, 0, false⟩).2.2 (by decide)

/-- C4: `check_death_conditions` returns `near_death(head_trauma, 0)` for
head=10 and everything else 100, `stable` for a pristine body, and for the
severely battered body (head=3, torso=2, limbs=2) a `death_risk` whose
cause list contains head_trauma, organ_failure and blood_loss. -/
theorem mortality_evaluator_cases :
    check_death_conditions ⟨10, 100, 100, 100, 100, 100⟩
      = .near_death .head_trauma 0 ∧
    check_death_conditions ⟨100, 100, 100, 100, 100, 100⟩ = .stable ∧
    check_death_conditions ⟨3, 2, 2, 2, 2, 2⟩
      = .death_risk [.head_trauma, .organ_failure, .blood_loss, .shock, .suffocation] ∧
    Cause.head_trauma ∈
      ([.head_trauma, .organ_failure, .blood_loss, .shock, .suffocation] : List Cause) ∧
    Cause.organ_failure ∈
      ([.head_trauma, .organ_failure, .blood_loss, .shock, .suffocation] : List Cause) ∧
    Cause.blood_loss ∈
      ([.head_trauma, .organ_failure, .blood_loss, .shock, .suffocation] : List Cause) := by
  refine ⟨?_, ?_, ?_, ?_, ?_, ?_⟩ <;>
    first
      | decide
      | norm_num [check_death_conditions, Id.run, BODY_ZONES, Body.zone]

/-- C5: after combat-state initialization (both sides) and after every
`update_confidence` call, the confidence value lies in `[0,100]` and the
five modifiers `(crit_bonus, acc_bonus, dmg_multiplier, skip_turn_chance,
slip_chance)` equal the tier table at the current confidence — the
modifiers never desynchronize from the confidence value. -/
theorem confidence_modifiers_sync :
    (∀ p_stats n_stats : List ℕ,
      (0 ≤ (init_dynamic_state (calculate_starting_confidence p_stats n_stats).1).confidence ∧
        (init_dynamic_state (calculate_starting_confidence p_stats n_stats).1).confidence ≤ 100 ∧
        modifiers (init_dynamic_state (calculate_starting_confidence p_stats n_stats).1)
          = tier (init_dynamic_state (calculate_starting_confidence p_stats n_stats).1).confidence) ∧
      (0 ≤ (init_dynamic_state (calculate_starting_confidence p_stats n_stats).2).confidence ∧
        (init_dynamic_state (calculate_starting_confidence p_stats n_stats).2).confidence ≤ 100 ∧
        modifiers (init_dynamic_state (calculate_starting_confidence p_stats n_stats).2)
          = tier (init_dynamic_state (calculate_starting_confidence p_stats n_stats).2).confidence)) ∧
    (∀ (d : DynamicState) (amount : ℤ),
      0 ≤ (update_confidence d amount).confidence ∧
      (update_confidence d amount).confidence ≤ 100 ∧
      modifiers (update_confidence d amount)
        = tier (update_confidence d amount).confidence) := by
  constructor
  · intro p_stats n_stats
    unfold init_dynamic_state calculate_starting_confidence
    refine ⟨⟨?_, ?_, ?_⟩, ⟨?_, ?_, ?_⟩⟩ <;>
      simp only [apply_confidence_penalties_confidence,
        modifiers_apply_confidence_penalties] <;> omega
  · intro d amount
    unfold update_confidence
    refine ⟨?_, ?_, ?_⟩ <;>
      simp only [apply_confidence_penalties_confidence,
        modifiers_apply_confidence_penalties] <;> omega

/-- C6: each of the three damage-application sites (normal attack,
failed-escape punishment attack, surrender beating) floors the struck
zone's health at 0, and `check_defeat` is true exactly when head or torso
health is ≤ 0 — a body with positive head and torso is never defeated,
whatever its limb healths. -/
theorem damage_floor_and_defeat :
    (∀ (b : Body) (z : Zone) (dmg : ℤ), 0 ≤ (attack_apply_damage b z dmg).zone z) ∧
    (∀ (b : Body) (z : Zone) (dmg : ℤ), 0 ≤ (punishment_apply_damage b z dmg).zone z) ∧
    (∀ (b : Body) (z : Zone) (dmg : ℤ), 0 ≤ (beating_apply_damage b z dmg).zone z) ∧
    (∀ b : Body, check_defeat b = true ↔ b.head ≤ 0 ∨ b.torso ≤ 0) ∧
    (∀ b : Body, 0 < b.head → 0 < b.torso → check_defeat b = false) := by
  refine ⟨?_, ?_, ?_, ?_, ?_⟩
  · intro b z dmg
    simp [attack_apply_damage, Body.zone_setZone_self]
  · intro b z dmg
    simp [punishment_apply_damage, Body.zone_setZone_self]
  · intro b z dmg
    simp [beating_apply_damage, Body.zone_setZone_self]
  · intro b
    simp [check_defeat]
  · intro b h1 h2
    simp [check_defeat]
    omega

/-- C6 witness: a body with head and torso intact but every limb at 0 is
not defeated, and a concrete overkill attack leaves the struck zone at 0,
not negative. -/
theorem damage_floor_and_defeat_witness :
    check_defeat ⟨1, 1, 0, 0, 0, 0⟩ = false :=
  damage_floor_and_defeat.2.2.2.2 ⟨1, 1, 0, 0, 0, 0⟩ (by decide) (by decide)

set_option maxHeartbeats 1000000 in
/-- C7: the escape chance always lies in `[5,85]` and equals the claim's
clamped formula `clamp(5,85, 30 + 2×(speed_self − speed_opponent) +
(confidence−50)/10 + experience/10 − injury_penalty)` with the stated
injury penalties; in the concrete scenario (player speed 50, opponent
speed 20, no injuries, confidence 50, experience 0) it is 85. -/
theorem escape_chance_formula :
    (∀ (player_stats : List ℕ) (player_body : Body) (confidence : ℤ)
        (npc_stats : List ℕ),
      calculate_escape_chance player_stats player_body confidence npc_stats
        = escape_chance_spec player_stats player_body confidence npc_stats ∧
      5 ≤ calculate_escape_chance player_stats player_body confidence npc_stats ∧
      calculate_escape_chance player_stats player_body confidence npc_stats ≤ 85) ∧
    calculate_escape_chance [20, 20, 20, 50, 0, 20, 20, 20, 20, 20]
      ⟨100, 100, 100, 100, 100, 100⟩ 50 [20, 20, 20, 20, 20, 20, 20, 20, 20, 20]
      = 85 := by
  constructor
  · intro player_stats player_body confidence npc_stats
    refine ⟨?_, ?_, ?_⟩
    · obtain ⟨bh, bt, bla, bra, bll, blr⟩ := player_body
      simp [calculate_escape_chance, escape_chance_spec, BODY_ZONES, Body.zone,
        List.foldl_cons, List.foldl_nil]
      generalize (confidence - 50).fdiv 10 = cm
      split_ifs <;> omega
    · simp only [calculate_escape_chance]
      exact le_max_left _ _
    · simp only [calculate_escape_chance]
      exact max_le (by norm_num) (min_le_left _ _)
  · simp [calculate_escape_chance, BODY_ZONES, Body.zone, Int.fdiv]

theorem toNat_natToDigit (d : ℕ) (hd : d < 10) : (natToDigit d).toNat = 48 + d := by
  interval_cases d <;> decide

theorem digitToNat_natToDigit (d : ℕ) (hd : d < 10) : digitToNat (natToDigit d) = d := by
  unfold digitToNat
  rw [toNat_natToDigit d hd]
  omega

theorem isDigitChar_natToDigit (d : ℕ) (hd : d < 10) : isDigitChar (natToDigit d) := by
  constructor <;> rw [toNat_natToDigit d hd] <;> omega

theorem digitToNat_lt_10 {c : Char} (h : isDigitChar c) : digitToNat c < 10 := by
  obtain ⟨h1, h2⟩ := h
  unfold digitToNat
  omega

theorem encode_stats_cons (v : ℕ) (vs : List ℕ) :
    encode_stats (v :: vs) = format02 v ++ encode_stats vs := by
  simp [encode_stats]

theorem get_stat_block_format02 (v : ℕ) (hv : v < 100) (rest : List Char) :
    get_stat_block (format02 v ++ rest) = v :: get_stat_block rest := by
  unfold format02
  rw [if_pos hv]
  show get_stat_block (natToDigit (v / 10) :: natToDigit (v % 10) :: rest) = _
  rw [get_stat_block]
  rw [digitToNat_natToDigit (v / 10) (by omega), digitToNat_natToDigit (v % 10) (by omega)]
  rw [Nat.div_add_mod v 10]

/-- C8: for every stat string of even length made of decimal digits,
`decode(encode(decode(s))) = decode(s)` — parsing two-character pairs,
re-encoding each value as exactly two digits, and re-parsing is lossless. -/
theorem stat_roundtrip : ∀ (s : List Char), (∀ c ∈ s, isDigitChar c) → s.length % 2 = 0 →
    get_stat_block (encode_stats (get_stat_block s)) = get_stat_block s
  | [], _, _ => rfl
  | [c], _, hlen => by simp at hlen
  | c1 :: c2 :: rest, hd, hlen => by
    have h1 : isDigitChar c1 := hd c1 (by simp)
    have h2 : isDigitChar c2 := hd c2 (by simp)
    have hrest : ∀ c ∈ rest, isDigitChar c := fun c hc => hd c (by simp [hc])
    have hlen' : rest.length % 2 = 0 := by
      simp only [List.length_cons] at hlen
      omega
    have hv : 10 * digitToNat c1 + digitToNat c2 < 100 := by
      have := digitToNat_lt_10 h1
      have := digitToNat_lt_10 h2
      omega
    show get_stat_block
        (encode_stats ((10 * digitToNat c1 + digitToNat c2) :: get_stat_block rest)) = _
    rw [encode_stats_cons, get_stat_block_format02 _ hv,
      stat_roundtrip rest hrest hlen']
    rw [get_stat_block]

/-- C8 witness: the round-trip on the concrete starting combat stat string
`"20202020202020202020"`. -/
theorem stat_roundtrip_witness :
    (∀ c ∈ ("20202020202020202020".toList), isDigitChar c) ∧
    ("20202020202020202020".toList.length % 2 = 0) ∧
    get_stat_block (encode_stats (get_stat_block "20202020202020202020".toList))
      = get_stat_block "20202020202020202020".toList :=
  ⟨by decide, by decide, stat_roundtrip "20202020202020202020".toList (by decide) (by decide)⟩

/-- C10: `modify_stat` preserves the string length, leaves every character
outside positions `[i, i+2)` unchanged, and writes at positions `i, i+1`
the two-digit encoding of a value in `[0,99]`. -/
theorem modify_stat_frame (s : List Char) (i : ℕ) (amount : ℤ)
    (hlen : i + 2 ≤ s.length) ( _hdig : ∀ c ∈ s, isDigitChar c) :
    (modify_stat s i amount).length = s.length ∧
    (∀ j, j < i → (modify_stat s i amount).getD j ' ' = s.getD j ' ') ∧
    (∀ j, i + 2 ≤ j → (modify_stat s i amount).getD j ' ' = s.getD j ' ') ∧
    (∃ v : ℕ, v ≤ 99 ∧
      (modify_stat s i amount).getD i ' ' = natToDigit (v / 10) ∧
      (modify_stat s i amount).getD (i + 1) ' ' = natToDigit (v % 10) ∧
      isDigitChar ((modify_stat s i amount).getD i ' ') ∧
      isDigitChar ((modify_stat s i amount).getD (i + 1) ' ')) := by
  set current : ℤ := ((intOfDigits ((s.drop i).take 2) : ℕ) : ℤ) with hcur
  set updated : ℤ := max 0 (min 99 (current + amount)) with hupd
  have hub : updated.toNat ≤ 99 := by omega
  have hfmt : format02 updated.toNat
      = [natToDigit (updated.toNat / 10), natToDigit (updated.toNat % 10)] := by
    unfold format02
    rw [if_pos (by omega)]
  have hms : modify_stat s i amount
      = s.take i ++ format02 updated.toNat ++ s.drop (i + 2) := rfl
  have hflen : (format02 updated.toNat).length = 2 := by rw [hfmt]; rfl
  have htake : (s.take i).length = i := by
    rw [List.length_take]
    omega
  refine ⟨?_, ?_, ?_, ?_⟩
  · rw [hms]
    simp only [List.length_append, htake, hflen, List.length_drop]
    omega
  · intro j hj
    rw [hms]
    rw [List.getD_eq_getElem?_getD, List.getD_eq_getElem?_getD]
    rw [List.getElem?_append_left (by simp [htake, hflen]; try omega)]
    rw [List.getElem?_append_left (by rw [htake]; omega)]
    rw [List.getElem?_take, if_pos hj]
  · intro j hj
    rw [hms]
    rw [List.getD_eq_getElem?_getD, List.getD_eq_getElem?_getD]
    rw [List.getElem?_append_right (by simp [htake, hflen]; try omega)]
    rw [List.getElem?_drop]
    have : i + 2 + (j - ((s.take i) ++ format02 updated.toNat).length) = j := by
      simp [List.length_append, htake, hflen]
      omega
    rw [this]
  · refine ⟨updated.toNat, hub, ?_, ?_, ?_, ?_⟩ <;> rw [hms] <;>
      rw [List.getD_eq_getElem?_getD]
    · rw [List.getElem?_append_left (by simp [htake, hflen]; try omega)]
      rw [List.getElem?_append_right (by rw [htake]), htake]
      simp [hfmt]
    · rw [List.getElem?_append_left (by simp [htake, hflen]; try omega)]
      rw [List.getElem?_append_right (by rw [htake]; omega), htake]
      have : i + 1 - i = 1 := by omega
      rw [this]
      simp [hfmt]
    · rw [List.getElem?_append_left (by simp [htake, hflen]; try omega)]
      rw [List.getElem?_append_right (by rw [htake]), htake]
      simp only [hfmt, Nat.sub_self]
      exact isDigitChar_natToDigit _ (by omega)
    · rw [List.getElem?_append_left (by simp [htake, hflen]; try omega)]
      rw [List.getElem?_append_right (by rw [htake]; omega), htake]
      have : i + 1 - i = 1 := by omega
      rw [this]
      simp only [hfmt]
      exact isDigitChar_natToDigit _ (by omega)

/-- C10 witness: adjusting the endurance slot (index 2) of `"2099"` by
`-25` keeps the length, the untouched characters, and writes a two-digit
value. -/
theorem modify_stat_frame_witness :
    (2 + 2 ≤ (['2', '0', '9', '9'] : List Char).length ∧
      ∀ c ∈ (['2', '0', '9', '9'] : List Char), isDigitChar c) ∧
    ((modify_stat ['2', '0', '9', '9'] 2 (-25)).length
        = (['2', '0', '9', '9'] : List Char).length ∧
      (∀ j, j < 2 → (modify_stat ['2', '0', '9', '9'] 2 (-25)).getD j ' '
        = (['2', '0', '9', '9'] : List Char).getD j ' ') ∧
      (∀ j, 2 + 2 ≤ j → (modify_stat ['2', '0', '9', '9'] 2 (-25)).getD j ' '
        = (['2', '0', '9', '9'] : List Char).getD j ' ') ∧
      (∃ v : ℕ, v ≤ 99 ∧
        (modify_stat ['2', '0', '9', '9'] 2 (-25)).getD 2 ' ' = natToDigit (v / 10) ∧
        (modify_stat ['2', '0', '9', '9'] 2 (-25)).getD (2 + 1) ' ' = natToDigit (v % 10) ∧
        isDigitChar ((modify_stat ['2', '0', '9', '9'] 2 (-25)).getD 2 ' ') ∧
        isDigitChar ((modify_stat ['2', '0', '9', '9'] 2 (-25)).getD (2 + 1) ' '))) :=
  ⟨⟨by decide, by decide⟩, modify_stat_frame ['2', '0', '9', '9'] 2 (-25) (by decide) (by decide)⟩

/-- C9: when the near-death record is missing from disk, or present but
empty, structurally invalid (not a mapping) or with its `active` flag
unset, the per-tick recovery check returns `not_near_death`, deleting the
file exactly when one exists; the function is total, so no error is
raised. -/
theorem corrupt_record_self_heal (disk : Option Json) (roll : ℤ)
    (hbad : ∀ nd, disk = some nd →
      ¬ (nd.truthy ∧ nd.isObj ∧ (nd.getDJ "active" (.bool false)).truthy)) :
    (check_natural_recovery disk roll).status = .not_near_death ∧
    (check_natural_recovery disk roll).deleted = disk.isSome := by
  match disk with
  | none => exact ⟨rfl, rfl⟩
  | some nd =>
    have h := hbad nd rfl
    simp only [check_natural_recovery]
    by_cases h1 : nd.truthy ∧ nd.isObj
    · by_cases h2 : (nd.getDJ "active" (.bool false)).truthy
      · exact absurd ⟨h1.1, h1.2, h2⟩ h
      · rw [if_neg (not_not_intro h1), if_pos h2]
        exact ⟨rfl, rfl⟩
    · rw [if_pos h1]
      exact ⟨rfl, rfl⟩

/-- C9 witness: a present-but-empty record (`{}` as produced by `load_json`
on a corrupt file) yields `not_near_death` and is deleted. -/
theorem corrupt_record_self_heal_witness :
    (check_natural_recovery (some (.obj [])) 1).status = .not_near_death ∧
    (check_natural_recovery (some (.obj [])) 1).deleted = (some (Json.obj [])).isSome :=
  corrupt_record_self_heal (some (.obj [])) 1
    (by intro nd h; cases h; decide)

/-- C2 counterexample: a severity-1 record whose roll falls in the
worsening band produces `DeathRisk`, not `Worsened(0)` — `worsen_condition`
(`src/main.py` 1536, 1551) lowers severity with `max(0, s-1)` and reports
death risk whenever the *new* severity is ≤ 0, which already happens when
the stored severity is 1. -/
theorem severity_one_worsen_death_risk_cex :
    (check_natural_recovery (some (mkNearDeathRecord "blood_loss" 1 25 25)) 30).status
      = .death_risk (.str "blood_loss") ∧
    (check_natural_recovery (some (mkNearDeathRecord "blood_loss" 1 25 25)) 30).status
      ≠ .worsened 0 :=
  ⟨rfl, fun h => nomatch h⟩

theorem getIntD_mk_severity (c : String) (s d r f : ℤ) :
    (mkNearDeathRecord c s d r).getIntD "severity" f = s := by
  simp [mkNearDeathRecord, Json.getIntD, Json.get, List.lookup]

theorem getIntD_mk_det (c : String) (s d r f : ℤ) :
    (mkNearDeathRecord c s d r).getIntD "deterioration_chance" f = d := by
  simp [mkNearDeathRecord, Json.getIntD, Json.get, List.lookup]

theorem getIntD_mk_rec (c : String) (s d r f : ℤ) :
    (mkNearDeathRecord c s d r).getIntD "recovery_chance" f = r := by
  simp [mkNearDeathRecord, Json.getIntD, Json.get, List.lookup]

theorem getDJ_mk_active (c : String) (s d r : ℤ) (f : Json) :
    (mkNearDeathRecord c s d r).getDJ "active" f = .bool true := by
  simp [mkNearDeathRecord, Json.getDJ, Json.get, List.lookup]

theorem getDJ_mk_cause (c : String) (s d r : ℤ) (f : Json) :
    (mkNearDeathRecord c s d r).getDJ "cause" f = .str c := by
  simp [mkNearDeathRecord, Json.getDJ, Json.get, List.lookup]

theorem set_mk_record (c : String) (s d r s2 d2 r2 : ℤ) :
    (((mkNearDeathRecord c s d r).set "severity" (.int s2)).set
        "deterioration_chance" (.int d2)).set "recovery_chance" (.int r2)
      = mkNearDeathRecord c s2 d2 r2 := by
  simp [mkNearDeathRecord, Json.set, setField]

/-- C2 (amended): for an active near-death record with integer fields and
severity in `[0,4]`, a roll in the worsening band updates the stored record
(severity `max(0, s−1)`, deterioration +10, recovery −5 floored at 5)
without deleting it; the outcome is `Worsened(s−1)` only when `s ≥ 2`,
while `DeathRisk` (with the recorded cause) is produced whenever `s ≤ 1`,
i.e. as soon as the lowered severity reaches stage 0. -/
theorem near_death_worsen_transition (cause : String) (severity det rec roll : ℤ)
    (hsev0 : 0 ≤ severity) (hsev4 : severity ≤ 4) (hrec : 0 ≤ rec) (hdet : 0 ≤ det)
    (hband1 : rec < roll) (hband2 : roll ≤ rec + det) :
    ((check_natural_recovery (some (mkNearDeathRecord cause severity det rec)) roll).deleted
        = false) ∧
    (2 ≤ severity →
      (check_natural_recovery (some (mkNearDeathRecord cause severity det rec)) roll).status
        = .worsened (severity - 1) ∧
      (check_natural_recovery (some (mkNearDeathRecord cause severity det rec)) roll).saved
        = some (mkNearDeathRecord cause (severity - 1) (det + 10) (max 5 (rec - 5)))) ∧
    (severity ≤ 1 →
      (check_natural_recovery (some (mkNearDeathRecord cause severity det rec)) roll).status
        = .death_risk (.str cause) ∧
      (check_natural_recovery (some (mkNearDeathRecord cause severity det rec)) roll).saved
        = some (mkNearDeathRecord cause 0 (det + 10) (max 5 (rec - 5)))) := by
  have htruthy : (mkNearDeathRecord cause severity det rec).truthy = true := by
    simp [mkNearDeathRecord, Json.truthy]
  have hobj : (mkNearDeathRecord cause severity det rec).isObj = true := by
    simp [mkNearDeathRecord, Json.isObj]
  rcases le_or_lt severity 1 with hs | hs
  · have hw : worsen_condition (some (mkNearDeathRecord cause severity det rec))
        = (.death_risk (.str cause),
           some (mkNearDeathRecord cause 0 (det + 10) (max 5 (rec - 5)))) := by
      simp only [worsen_condition, htruthy, hobj, getIntD_mk_severity, getIntD_mk_det,
        getIntD_mk_rec, getDJ_mk_cause, set_mk_record]
      rw [if_neg (by simp)]
      rw [if_neg (show ¬ (severity < 0 ∨ severity > 4) by omega)]
      rw [show max 0 (severity - 1) = 0 by omega]
      rw [if_pos (show (0 : ℤ) ≤ 0 by omega)]
    have hmain : check_natural_recovery (some (mkNearDeathRecord cause severity det rec)) roll
        = ⟨.death_risk (.str cause), false,
           some (mkNearDeathRecord cause 0 (det + 10) (max 5 (rec - 5)))⟩ := by
      simp only [check_natural_recovery, htruthy, hobj, getDJ_mk_active,
        getIntD_mk_rec, getIntD_mk_det]
      rw [if_neg (by simp)]
      rw [if_neg (by simp [Json.truthy])]
      rw [if_neg (show ¬ (rec < 0) by omega), if_neg (show ¬ (det < 0) by omega)]
      rw [if_neg (show ¬ (roll ≤ rec) by omega), if_pos (show roll ≤ rec + det by omega)]
      rw [hw]
    exact ⟨by rw [hmain], fun h2 => absurd h2 (by omega),
      fun h1 => by rw [hmain]; exact ⟨rfl, rfl⟩⟩
  · have hw : worsen_condition (some (mkNearDeathRecord cause severity det rec))
        = (.worsened (severity - 1),
           some (mkNearDeathRecord cause (severity - 1) (det + 10) (max 5 (rec - 5)))) := by
      simp only [worsen_condition, htruthy, hobj, getIntD_mk_severity, getIntD_mk_det,
        getIntD_mk_rec, getDJ_mk_cause, set_mk_record]
      rw [if_neg (by simp)]
      rw [if_neg (show ¬ (severity < 0 ∨ severity > 4) by omega)]
      rw [show max 0 (severity - 1) = severity - 1 by omega]
      rw [if_neg (show ¬ (severity - 1 ≤ 0) by omega)]
    have hmain : check_natural_recovery (some (mkNearDeathRecord cause severity det rec)) roll
        = ⟨.worsened (severity - 1), false,
           some (mkNearDeathRecord cause (severity - 1) (det + 10) (max 5 (rec - 5)))⟩ := by
      simp only [check_natural_recovery, htruthy, hobj, getDJ_mk_active,
        getIntD_mk_rec, getIntD_mk_det]
      rw [if_neg (by simp)]
      rw [if_neg (by simp [Json.truthy])]
      rw [if_neg (show ¬ (rec < 0) by omega), if_neg (show ¬ (det < 0) by omega)]
      rw [if_neg (show ¬ (roll ≤ rec) by omega), if_pos (show roll ≤ rec + det by omega)]
      rw [hw]
    exact ⟨by rw [hmain], fun h2 => by rw [hmain]; exact ⟨rfl, rfl⟩,
      fun h1 => absurd h1 (by omega)⟩

/-- C2 witness: a severity-3 record (deterioration 15, recovery 55) at
roll 60 worsens to severity 2 with the updated chances. -/
theorem near_death_worsen_transition_witness :
    (0 ≤ (3 : ℤ) ∧ (3 : ℤ) ≤ 4 ∧ 0 ≤ (55 : ℤ) ∧ 0 ≤ (15 : ℤ) ∧
      (55 : ℤ) < 60 ∧ (60 : ℤ) ≤ 55 + 15) ∧
    ((check_natural_recovery (some (mkNearDeathRecord "blood_loss" 3 15 55)) 60).deleted
        = false) ∧
    (2 ≤ (3 : ℤ) →
      (check_natural_recovery (some (mkNearDeathRecord "blood_loss" 3 15 55)) 60).status
        = .worsened (3 - 1) ∧
      (check_natural_recovery (some (mkNearDeathRecord "blood_loss" 3 15 55)) 60).saved
        = some (mkNearDeathRecord "blood_loss" (3 - 1) (15 + 10) (max 5 (55 - 5)))) ∧
    ((3 : ℤ) ≤ 1 →
      (check_natural_recovery (some (mkNearDeathRecord "blood_loss" 3 15 55)) 60).status
        = .death_risk (.str "blood_loss") ∧
      (check_natural_recovery (some (mkNearDeathRecord "blood_loss" 3 15 55)) 60).saved
        = some (mkNearDeathRecord "blood_loss" 0 (15 + 10) (max 5 (55 - 5)))) :=
  ⟨⟨by norm_num, by norm_num, by norm_num, by norm_num, by norm_num, by norm_num⟩,
    near_death_worsen_transition "blood_loss" 3 15 55 60 (by norm_num) (by norm_num)
      (by norm_num) (by norm_num) (by norm_num) (by norm_num)⟩

/-- C3 counterexample: `apply_medical_care` reads the patient record with
`CharacterManager.get_character_data` (`src/main.py` 1257), which loads
from `./chars`; the player record lives only at `./player/player.json`,
so for the player the endurance/toughness bonus is silently skipped: with
field medicine (effectiveness 30), severity 0 and player endurance =
toughness = 99, the code rolls against 30, not the claimed
`clamp(10,95, 30 + (99+99)/10) = 49.8`. -/
theorem medical_player_stat_bonus_cex :
    apply_medical_care_chance cex_files "player_001" .field_medicine 0 = 30 ∧
    getPlayer cex_files = some cex_player_record ∧
    medical_chance_spec (get_stat_block (statStringAt cex_player_record).toList)
      .field_medicine 0 = 249 / 5 ∧
    (30 : ℚ) ≠ 249 / 5 := by
  refine ⟨?_, rfl, ?_, by norm_num⟩
  · show max 10 (min 95 ((30 : ℚ) - 0 * 5)) = 30
    norm_num
  · show max 10 (min 95 ((30 : ℚ) + (99 + 99) / 10 - 0 * 5)) = 249 / 5
    norm_num

/-- C3 (amended): the treatment success chance equals
`clamp(10,95, effectiveness + (endurance+toughness)/10 − severity×5)` for
patients whose record is found in the `./chars` character store (with a
record of more than 8 entries); for a patient absent from that store —
the player, whose record is kept at `./player/player.json` instead — the
stat bonus is skipped and the chance is
`clamp(10,95, effectiveness − severity×5)`. -/
theorem medical_chance_by_store (files : GameFiles) (char_id : String)
    (care : CareType) (severity : ℤ) :
    (∀ r, get_character_data files char_id = some r → r.length > 8 →
      apply_medical_care_chance files char_id care severity
        = medical_chance_spec (get_stat_block (statStringAt r).toList) care severity) ∧
    (get_character_data files char_id = none →
      apply_medical_care_chance files char_id care severity
        = max 10 (min 95 ((effectiveness care : ℚ) - (severity : ℚ) * 5))) := by
  constructor
  · intro r hr hlen
    simp only [apply_medical_care_chance, medical_chance_spec, hr]
    rw [if_pos hlen]
  · intro hr
    simp only [apply_medical_care_chance, hr]

/-- C3 witness: the player lookup misses the character store, so field
medicine at severity 0 gives chance `clamp(10,95,30)`. -/
theorem medical_chance_by_store_witness :
    (get_character_data cex_files "player_001" = none) ∧
    apply_medical_care_chance cex_files "player_001" .field_medicine 0
      = max 10 (min 95 ((effectiveness CareType.field_medicine : ℚ) - (0 : ℚ) * 5)) :=
  ⟨rfl, (medical_chance_by_store cex_files "player_001" .field_medicine 0).2 rfl⟩

end LifeSim







